import Mathlib

/-!
Shallow embedding of the polygons-manager front-end core
(`src/unnamed/part_000`: the `App` component and its `AppView`).

State fields mirror the React `useState` hooks of `App`; each event
handler is translated as a function from the current state (plus the
outcomes of any remote calls it awaits) to the next state together with
the list of remote requests it issues.  Canvas rendering is embedded as
a function producing the list of drawing commands `drawCanvas` would
issue on a 2D context.  JS numbers for canvas coordinates are modelled
as integers (no claim depends on fractional coordinates); the label
centroid, which divides by a length, is modelled in `ℚ`.
-/

namespace PolygonsManager

/-- Canvas-space coordinate pair, as produced by a click. -/
abbrev Point := Int × Int

/-- Persisted polygon (`App.types`): the renderer and the list view guard on
`polygon.points` being present (`polygon.points && ...`, `polygon.points?.length`),
so server-supplied data may omit it; we model the field as an `Option`. -/
structure Polygon where
  id : Int
  name : String
  points : Option (List Point)
deriving DecidableEq

/-- The seven `useState` hooks of `App`, with their initial values in
`initialState`. -/
structure AppState where
  polygons : List Polygon
  currentPolygon : List Point
  isDrawing : Bool
  newPolygonName : String
  showSaveButton : Bool
  showNameDialog : Bool
  loading : Bool
deriving DecidableEq

/-- Initial hook values: `[]`, `[]`, `false`, `''`, `false`, `false`, `false`. -/
def initialState : AppState :=
  { polygons := []
    currentPolygon := []
    isDrawing := false
    newPolygonName := ""
    showSaveButton := false
    showNameDialog := false
    loading := false }

/-- A remote request issued by the Sync layer. -/
inductive Request where
  | fetchList
  | create (name : String) (points : List Point)
  | delete (id : Int)
deriving DecidableEq

/-- Outcome of the `GET /polygons` fetch: a transport error (the `catch`
branch) or a response with its `ok` status and parsed JSON body. -/
inductive FetchOutcome where
  | transportError
  | response (ok : Bool) (data : List Polygon)
deriving DecidableEq

/-- Parsed JSON body returned by `POST /polygons`; the only field the client
inspects is `error`. -/
structure CreateBody where
  error : Option String
deriving DecidableEq

/-- Outcome of the `POST /polygons` call. -/
inductive CreateOutcome where
  | transportError
  | response (ok : Bool) (body : CreateBody)
deriving DecidableEq

/-- Outcome of the `DELETE /polygons/{id}` call. -/
inductive DeleteOutcome where
  | transportError
  | response (ok : Bool)
deriving DecidableEq

/-- The duplicate-name signal recognised by `handleCreatePolygon`. -/
def duplicateNameError : String := "Polygon with this name already exists"

/-- JS `String.prototype.trim`: strip whitespace from both ends.  Modelled
structurally over the character list so that it evaluates on concrete
inputs. -/
def trimString (s : String) : String :=
  ⟨((s.data.dropWhile Char.isWhitespace).reverse.dropWhile
      Char.isWhitespace).reverse⟩

/-- `fetchPolygons`: on `response.ok` the collection is replaced by the parsed
data (`setPolygons(data)`); otherwise (non-ok status or thrown error) only a
toast is shown and the collection is untouched.  `loading` is set on entry and
cleared on every exit path; atomically the net effect is `loading := false`. -/
def fetchPolygonsFn (s : AppState) (o : FetchOutcome) : AppState :=
  match o with
  | .response ok data =>
      if ok then { s with polygons := data, loading := false }
      else { s with loading := false }
  | .transportError => { s with loading := false }

/-- `createPolygon(name, points)`: issues the POST; on `response.ok` it awaits
`fetchPolygons()` (outcome `fo`) before clearing `loading`; it returns the
parsed body (`response.json()`), or `null` (`none`) on a thrown error. -/
def createPolygonFn (s : AppState) (name : String) (points : List Point)
    (co : CreateOutcome) (fo : FetchOutcome) :
    AppState × Option CreateBody × List Request :=
  match co with
  | .transportError =>
      ({ s with loading := false }, none, [Request.create name points])
  | .response ok body =>
      if ok then
        let s1 := fetchPolygonsFn { s with loading := true } fo
        ({ s1 with loading := false }, some body,
          [Request.create name points, Request.fetchList])
      else
        ({ s with loading := false }, some body, [Request.create name points])

/-- `deletePolygon(id)`: issues the DELETE; on `response.ok` it awaits
`fetchPolygons()`; failures only toast. -/
def deletePolygonFn (s : AppState) (id : Int) (o : DeleteOutcome)
    (fo : FetchOutcome) : AppState × List Request :=
  match o with
  | .transportError => ({ s with loading := false }, [Request.delete id])
  | .response ok =>
      if ok then
        let s1 := fetchPolygonsFn { s with loading := true } fo
        ({ s1 with loading := false }, [Request.delete id, Request.fetchList])
      else
        ({ s with loading := false }, [Request.delete id])

/-- `startDrawing`: `setIsDrawing(true); setCurrentPolygon([])`. -/
def startDrawingFn (s : AppState) : AppState :=
  { s with isDrawing := true, currentPolygon := [] }

/-- `cancelDrawing`: `setIsDrawing(false); setCurrentPolygon([])`. -/
def cancelDrawingFn (s : AppState) : AppState :=
  { s with isDrawing := false, currentPolygon := [] }

/-- `handleCanvasClick`: ignored unless drawing; sets `showSaveButton` when the
pre-click draft already has more than one point, then appends the click. -/
def clickFn (s : AppState) (p : Point) : AppState :=
  if s.isDrawing then
    { s with
      showSaveButton :=
        if 1 < s.currentPolygon.length then true else s.showSaveButton
      currentPolygon := s.currentPolygon ++ [p] }
  else s

/-- Whether a returned create body carries the duplicate-name signal
(`res?.error === 'Polygon with this name already exists'`). -/
def bodyIsDuplicate (res : Option CreateBody) : Bool :=
  match res with
  | some body => body.error == some duplicateNameError
  | none => false

/-- Whether a create outcome carries the duplicate-name signal in its body. -/
def outcomeIsDuplicate (co : CreateOutcome) : Bool :=
  match co with
  | .response _ body => body.error == some duplicateNameError
  | .transportError => false

/-- Continuation of `handleCreatePolygon` after `await createPolygon(...)`
resolves to `r`: return early (preserving all draft/dialog state) when the
result carries the duplicate-name error; otherwise reset drawing, draft, name
and dialog. -/
def handleCreateAfter (r : AppState × Option CreateBody × List Request) :
    AppState × List Request :=
  if bodyIsDuplicate r.2.1 then (r.1, r.2.2)
  else
    ({ r.1 with
        isDrawing := false
        currentPolygon := []
        newPolygonName := ""
        showNameDialog := false }, r.2.2)

/-- `handleCreatePolygon`: guarded by `newPolygonName.trim() &&
currentPolygon.length > 2`; awaits `createPolygon` and continues with
`handleCreateAfter`. -/
def handleCreatePolygonFn (s : AppState) (co : CreateOutcome)
    (fo : FetchOutcome) : AppState × List Request :=
  if trimString s.newPolygonName ≠ "" ∧ 2 < s.currentPolygon.length then
    handleCreateAfter (createPolygonFn s (trimString s.newPolygonName) s.currentPolygon co fo)
  else (s, [])

/-- `handleDeletePolygon`: `window.confirm(...)` result is the `confirmed`
argument; the DELETE fires only on a yes. -/
def handleDeletePolygonFn (s : AppState) (id : Int) (confirmed : Bool)
    (o : DeleteOutcome) (fo : FetchOutcome) : AppState × List Request :=
  if confirmed then deletePolygonFn s id o fo else (s, [])

/-! View-derived predicates, from `AppView`. -/

/-- The save affordance is rendered exactly when `showSaveButton` holds
(`{props.showSaveButton && <Button ...>}`). -/
def saveAffordanceVisible (s : AppState) : Bool := s.showSaveButton

/-- The save affordance's `disabled` prop:
`props.loading || !props.isDrawing || props.currentPolygon.length < 3`. -/
def saveAffordanceDisabled (s : AppState) : Bool :=
  s.loading || !s.isDrawing || decide (s.currentPolygon.length < 3)

/-- The naming dialog's Save button is `disabled={props.loading}`. -/
def dialogSaveDisabled (s : AppState) : Bool := s.loading

/-- The naming dialog's Cancel button is `disabled={props.loading}`. -/
def dialogCancelDisabled (s : AppState) : Bool := s.loading

/-! Event-level semantics: each user interaction routed through the view,
honouring which controls the view renders and disables. -/

/-- A user interaction, carrying the outcomes of the remote calls the
resulting handler awaits. -/
inductive Event where
  | startDrawing
  | cancelDrawing
  | canvasClick (p : Point)
  | openNameDialog
  | nameDialogCancel
  | setName (name : String)
  | confirmSave (co : CreateOutcome) (fo : FetchOutcome)
  | deleteClick (id : Int) (confirmed : Bool) (o : DeleteOutcome)
      (fo : FetchOutcome)
  | initialFetch (fo : FetchOutcome)

/-- One user interaction: handlers fire only through controls the view
actually renders enabled (the Draw New Polygon button is only rendered while
not drawing and has no `disabled` prop; the delete icon has no `disabled`
prop; the save affordance and dialog buttons are disabled per their
predicates). -/
def step (s : AppState) (e : Event) : AppState × List Request :=
  match e with
  | .startDrawing => if s.isDrawing then (s, []) else (startDrawingFn s, [])
  | .cancelDrawing => if s.isDrawing then (cancelDrawingFn s, []) else (s, [])
  | .canvasClick p => (clickFn s p, [])
  | .openNameDialog =>
      if saveAffordanceVisible s && !saveAffordanceDisabled s then
        ({ s with showNameDialog := true }, [])
      else (s, [])
  | .nameDialogCancel =>
      if dialogCancelDisabled s then (s, [])
      else ({ s with showNameDialog := false }, [])
  | .setName n => ({ s with newPolygonName := n }, [])
  | .confirmSave co fo =>
      if dialogSaveDisabled s then (s, []) else handleCreatePolygonFn s co fo
  | .deleteClick id confirmed o fo => handleDeletePolygonFn s id confirmed o fo
  | .initialFetch fo => (fetchPolygonsFn s fo, [Request.fetchList])

/-- Run a sequence of interactions, keeping only the state. -/
def run (s : AppState) (es : List Event) : AppState :=
  es.foldl (fun t e => (step t e).1) s

/-! Renderer: `drawCanvas` embedded as the list of 2D-context commands it
issues after the background image loads. -/

/-- An HSLA fill style: hue in degrees, saturation and lightness in percent,
alpha in `[0,1]`. -/
structure Hsla where
  hue : Nat
  sat : Nat
  light : Nat
  alpha : ℚ
deriving DecidableEq

/-- An opaque HSL stroke style. -/
structure Hsl where
  hue : Nat
  sat : Nat
  light : Nat
deriving DecidableEq

/-- Fill style for the saved polygon at collection index `index`:
`hsla(${index * 60}, 70%, 50%, 0.3)`. -/
def fillStyleFor (index : Nat) : Hsla := ⟨index * 60, 70, 50, 3 / 10⟩

/-- Stroke style for the saved polygon at collection index `index`:
`hsl(${index * 60}, 70%, 40%)`. -/
def strokeStyleFor (index : Nat) : Hsl := ⟨index * 60, 70, 40⟩

/-- A drawing command issued on the canvas 2D context. -/
inductive DrawCmd where
  | clearRect
  | drawImage
  | savedPath (pts : List Point)
  | fill (style : Hsla)
  | stroke (style : Hsl) (width : Nat)
  | label (text : String) (x y : ℚ)
  | draftPath (pts : List Point) (closed : Bool)
  | fillRgba (r g b : Nat) (alpha : ℚ)
  | strokeRed (width : Nat)
  | vertexDot (p : Point) (radius : Nat)
deriving DecidableEq

/-- Mean x coordinate of a point list (`reduce` sum divided by length). -/
def centerX (pts : List Point) : ℚ :=
  ((pts.map (fun p => (p.1 : ℚ))).sum) / (pts.length : ℚ)

/-- Mean y coordinate of a point list. -/
def centerY (pts : List Point) : ℚ :=
  ((pts.map (fun p => (p.2 : ℚ))).sum) / (pts.length : ℚ)

/-- Commands issued for one saved polygon at collection index `index`: only
when `polygon.points && polygon.points.length > 2` — a closed path through the
points, the indexed fill and stroke, and (the nested, always-true guard
`points.length > 0`) the name label near the centroid, offset 20 left. -/
def renderPolygon (index : Nat) (p : Polygon) : List DrawCmd :=
  match p.points with
  | some pts =>
      if 2 < pts.length then
        [DrawCmd.savedPath pts,
         DrawCmd.fill (fillStyleFor index),
         DrawCmd.stroke (strokeStyleFor index) 2]
        ++ (if 0 < pts.length then
              [DrawCmd.label p.name (centerX pts - 20) (centerY pts)]
            else [])
      else []
  | none => []

/-- The renderer's guard for one saved polygon:
`polygon.points && polygon.points.length > 2`. -/
def shouldDraw (p : Polygon) : Bool :=
  match p.points with
  | some pts => decide (2 < pts.length)
  | none => false

/-- Commands for the in-progress draft: path through the points (closed, with
a translucent red fill, only once more than 2 points), red stroke of width 2,
and a radius-4 dot on every placed vertex. -/
def draftCmds (draft : List Point) : List DrawCmd :=
  if 0 < draft.length then
    [DrawCmd.draftPath draft (decide (2 < draft.length))]
    ++ (if 2 < draft.length then [DrawCmd.fillRgba 255 0 0 (3 / 10)] else [])
    ++ [DrawCmd.strokeRed 2]
    ++ draft.map (fun p => DrawCmd.vertexDot p 4)
  else []

/-- `drawCanvas` body (inside `img.onload`): clear, draw the background image,
draw every saved polygon with its `forEach` index, then the draft. -/
def drawCanvas (polys : List Polygon) (draft : List Point) : List DrawCmd :=
  [DrawCmd.clearRect, DrawCmd.drawImage]
  ++ (polys.enum.flatMap fun ip => renderPolygon ip.1 ip.2)
  ++ draftCmds draft

/-! Concrete inputs used to exercise the definitions. -/

/-- A state mid-naming: three draft points, a name entered, dialog open. -/
def namingState : AppState :=
  { initialState with
      isDrawing := true
      currentPolygon := [(0, 0), (10, 0), (10, 10)]
      newPolygonName := "Zone1"
      showSaveButton := true
      showNameDialog := true }

/-- A create outcome whose body carries the duplicate-name signal. -/
def dupOutcome : CreateOutcome :=
  CreateOutcome.response false ⟨some duplicateNameError⟩

/-- The idle state with a remote call in flight. -/
def busyState : AppState := { initialState with loading := true }

/-- The state reached from start-up by starting a drawing session and
accepting exactly two clicks. -/
def twoClickState : AppState :=
  run initialState
    [Event.startDrawing, Event.canvasClick (1, 1), Event.canvasClick (2, 2)]

/-- A three-polygon collection whose middle entry has no points field. -/
def samplePolys : List Polygon :=
  [⟨1, "A", some [(0, 0), (4, 0), (0, 4)]⟩,
   ⟨2, "B", none⟩,
   ⟨3, "C", some [(0, 0), (6, 0), (0, 6)]⟩]

/-! Helper lemmas shared by the claim theorems. -/

theorem fetchPolygonsFn_preserves (s : AppState) (o : FetchOutcome) :
    (fetchPolygonsFn s o).currentPolygon = s.currentPolygon
    ∧ (fetchPolygonsFn s o).isDrawing = s.isDrawing
    ∧ (fetchPolygonsFn s o).newPolygonName = s.newPolygonName
    ∧ (fetchPolygonsFn s o).showSaveButton = s.showSaveButton
    ∧ (fetchPolygonsFn s o).showNameDialog = s.showNameDialog := by
  cases o with
  | transportError => simp [fetchPolygonsFn]
  | response ok data => cases ok <;> simp [fetchPolygonsFn]

theorem createPolygonFn_preserves (s : AppState) (name : String)
    (pts : List Point) (co : CreateOutcome) (fo : FetchOutcome) :
    (createPolygonFn s name pts co fo).1.currentPolygon = s.currentPolygon
    ∧ (createPolygonFn s name pts co fo).1.isDrawing = s.isDrawing
    ∧ (createPolygonFn s name pts co fo).1.newPolygonName = s.newPolygonName
    ∧ (createPolygonFn s name pts co fo).1.showSaveButton = s.showSaveButton
    ∧ (createPolygonFn s name pts co fo).1.showNameDialog = s.showNameDialog := by
  obtain ⟨f1, f2, f3, f4, f5⟩ :=
    fetchPolygonsFn_preserves { s with loading := true } fo
  cases co with
  | transportError => simp [createPolygonFn]
  | response ok body =>
      cases ok <;>
        simp_all [createPolygonFn]

theorem createPolygonFn_dup (s : AppState) (name : String) (pts : List Point)
    (co : CreateOutcome) (fo : FetchOutcome) :
    bodyIsDuplicate (createPolygonFn s name pts co fo).2.1 =
      outcomeIsDuplicate co := by
  cases co with
  | transportError => simp [createPolygonFn, bodyIsDuplicate, outcomeIsDuplicate]
  | response ok body =>
      cases ok <;>
        simp [createPolygonFn, bodyIsDuplicate, outcomeIsDuplicate]

theorem deletePolygonFn_request (s : AppState) (id : Int) (o : DeleteOutcome)
    (fo : FetchOutcome) :
    Request.delete id ∈ (deletePolygonFn s id o fo).2 := by
  cases o with
  | transportError => simp [deletePolygonFn]
  | response ok => cases ok <;> simp [deletePolygonFn]

theorem deletePolygonFn_flag (s : AppState) (id : Int) (o : DeleteOutcome)
    (fo : FetchOutcome) :
    (deletePolygonFn s id o fo).1.showSaveButton = s.showSaveButton := by
  obtain ⟨-, -, -, f4, -⟩ := fetchPolygonsFn_preserves { s with loading := true } fo
  cases o with
  | transportError => simp [deletePolygonFn]
  | response ok => cases ok <;> simp_all [deletePolygonFn]

theorem handleCreateAfter_flag (r : AppState × Option CreateBody × List Request) :
    (handleCreateAfter r).1.showSaveButton = r.1.showSaveButton := by
  unfold handleCreateAfter
  split <;> rfl

theorem handleCreatePolygonFn_flag (s : AppState) (co : CreateOutcome)
    (fo : FetchOutcome) :
    (handleCreatePolygonFn s co fo).1.showSaveButton = s.showSaveButton := by
  obtain ⟨-, -, -, c4, -⟩ :=
    createPolygonFn_preserves s (trimString s.newPolygonName) s.currentPolygon co fo
  unfold handleCreatePolygonFn
  split
  · rw [handleCreateAfter_flag]; exact c4
  · rfl

theorem step_flag_mono (s : AppState) (e : Event)
    (h : s.showSaveButton = true) : (step s e).1.showSaveButton = true := by
  cases e with
  | startDrawing =>
      simp only [step, startDrawingFn]; split <;> simpa
  | cancelDrawing =>
      simp only [step, cancelDrawingFn]; split <;> simpa
  | canvasClick p =>
      simp only [step, clickFn]; split
      · split <;> simp_all
      · exact h
  | openNameDialog => simp only [step]; split <;> simpa
  | nameDialogCancel => simp only [step]; split <;> simpa
  | setName n => simpa [step]
  | confirmSave co fo =>
      simp only [step]; split
      · exact h
      · rw [handleCreatePolygonFn_flag]; exact h
  | deleteClick id confirmed o fo =>
      simp only [step, handleDeletePolygonFn]; split
      · rw [deletePolygonFn_flag]; exact h
      · exact h
  | initialFetch fo =>
      obtain ⟨-, -, -, f4, -⟩ := fetchPolygonsFn_preserves s fo
      simp only [step]
      exact f4.trans h

/-! Claim theorems. -/

/-- Claim C1: for every confirmSave outcome, when the create call's result
carries the duplicate-name signal, the draft points, entered name, drawing
flag and open naming dialog are all preserved unchanged; on any other
failure (transport error or generic rejection) and on success, the draft
points are cleared, the name field is cleared, the dialog is closed, and the
machine returns to Idle (`isDrawing = false`). -/
theorem confirmSave_outcome_policy (s : AppState) (co : CreateOutcome)
    (fo : FetchOutcome) (hname : trimString s.newPolygonName ≠ "")
    (hlen : 2 < s.currentPolygon.length) :
    (outcomeIsDuplicate co = true →
      (handleCreatePolygonFn s co fo).1.currentPolygon = s.currentPolygon
      ∧ (handleCreatePolygonFn s co fo).1.newPolygonName = s.newPolygonName
      ∧ (handleCreatePolygonFn s co fo).1.isDrawing = s.isDrawing
      ∧ (handleCreatePolygonFn s co fo).1.showNameDialog = s.showNameDialog)
    ∧ (outcomeIsDuplicate co = false →
      (handleCreatePolygonFn s co fo).1.currentPolygon = []
      ∧ (handleCreatePolygonFn s co fo).1.newPolygonName = ""
      ∧ (handleCreatePolygonFn s co fo).1.isDrawing = false
      ∧ (handleCreatePolygonFn s co fo).1.showNameDialog = false) := by
  obtain ⟨c1, c2, c3, -, c5⟩ :=
    createPolygonFn_preserves s (trimString s.newPolygonName) s.currentPolygon co fo
  have hdup := createPolygonFn_dup s (trimString s.newPolygonName) s.currentPolygon co fo
  unfold handleCreatePolygonFn
  rw [if_pos ⟨hname, hlen⟩]
  unfold handleCreateAfter
  constructor
  · intro hd
    rw [hdup, hd]
    simp only [if_true]
    exact ⟨c1, c3, c2, c5⟩
  · intro hd
    rw [hdup, hd]
    simp

/-- Claim C1 witness: a concrete naming state and a duplicate-name response. -/
theorem confirmSave_outcome_policy_witness :
    (outcomeIsDuplicate dupOutcome = true →
      (handleCreatePolygonFn namingState dupOutcome FetchOutcome.transportError).1.currentPolygon
          = namingState.currentPolygon
      ∧ (handleCreatePolygonFn namingState dupOutcome FetchOutcome.transportError).1.newPolygonName
          = namingState.newPolygonName
      ∧ (handleCreatePolygonFn namingState dupOutcome FetchOutcome.transportError).1.isDrawing
          = namingState.isDrawing
      ∧ (handleCreatePolygonFn namingState dupOutcome FetchOutcome.transportError).1.showNameDialog
          = namingState.showNameDialog)
    ∧ (outcomeIsDuplicate dupOutcome = false →
      (handleCreatePolygonFn namingState dupOutcome FetchOutcome.transportError).1.currentPolygon = []
      ∧ (handleCreatePolygonFn namingState dupOutcome FetchOutcome.transportError).1.newPolygonName = ""
      ∧ (handleCreatePolygonFn namingState dupOutcome FetchOutcome.transportError).1.isDrawing = false
      ∧ (handleCreatePolygonFn namingState dupOutcome FetchOutcome.transportError).1.showNameDialog = false) :=
  confirmSave_outcome_policy namingState dupOutcome FetchOutcome.transportError
    (by decide) (by decide)

/-- Claim C3: the remote create call is issued only when the trimmed name is
non-empty and the draft has at least 3 points; when either condition fails
the handler makes no request and changes no state. -/
theorem create_validation_blocks (s : AppState) (co : CreateOutcome)
    (fo : FetchOutcome)
    (h : trimString s.newPolygonName = "" ∨ s.currentPolygon.length < 3) :
    handleCreatePolygonFn s co fo = (s, []) := by
  unfold handleCreatePolygonFn
  rw [if_neg]
  rintro ⟨h1, h2⟩
  rcases h with h | h
  · exact h1 h
  · omega

/-- Claim C3 witness: the initial state has an empty name, so no request. -/
theorem create_validation_blocks_witness :
    handleCreatePolygonFn initialState CreateOutcome.transportError
      FetchOutcome.transportError = (initialState, []) :=
  create_validation_blocks initialState CreateOutcome.transportError
    FetchOutcome.transportError (Or.inl (by decide))

/-- Claim C4: on a success response, the collection is replaced wholesale by
the response sequence; on a non-success status or a transport failure it is
left exactly as it was. -/
theorem list_outcome_collection (s : AppState) (data : List Polygon) :
    (fetchPolygonsFn s (FetchOutcome.response true data)).polygons = data
    ∧ (fetchPolygonsFn s (FetchOutcome.response false data)).polygons = s.polygons
    ∧ (fetchPolygonsFn s FetchOutcome.transportError).polygons = s.polygons :=
  ⟨rfl, rfl, rfl⟩

/-- Claim C7: the remote delete call is issued exactly when the confirmation
returned yes; a declined confirmation leaves the state (in particular the
collection) unchanged and issues nothing. -/
theorem delete_requires_confirmation (s : AppState) (id : Int)
    (o : DeleteOutcome) (fo : FetchOutcome) :
    handleDeletePolygonFn s id false o fo = (s, [])
    ∧ Request.delete id ∈ (handleDeletePolygonFn s id true o fo).2 :=
  ⟨rfl, deletePolygonFn_request s id o fo⟩

/-- Claim C8: `cancelDrawing()` followed by `startDrawing()` always yields an
empty draft, whatever was accumulated before. -/
theorem cancel_then_start_empty (s : AppState) :
    (startDrawingFn (cancelDrawingFn s)).currentPolygon = [] := rfl

/-- Claim C10: once `showSaveButton` is true it stays true across every
sequence of interactions — no operation ever resets it. -/
theorem save_flag_monotone (es : List Event) (s : AppState)
    (h : s.showSaveButton = true) : (run s es).showSaveButton = true := by
  induction es generalizing s with
  | nil => exact h
  | cons e es ih => exact ih (step s e).1 (step_flag_mono s e h)

/-- Claim C10 witness: a cancelled session keeps the flag set. -/
theorem save_flag_monotone_witness :
    (run { initialState with showSaveButton := true }
      [Event.cancelDrawing, Event.startDrawing]).showSaveButton = true :=
  save_flag_monotone [Event.cancelDrawing, Event.startDrawing]
    { initialState with showSaveButton := true } rfl

theorem mem_drawCanvas_of_mem_renderPolygon (polys : List Polygon)
    (draft : List Point) (i : Nat) (h : i < polys.length) (cmd : DrawCmd)
    (hm : cmd ∈ renderPolygon i polys[i]) :
    cmd ∈ drawCanvas polys draft := by
  unfold drawCanvas
  refine List.mem_append.2 (Or.inl (List.mem_append.2 (Or.inr ?_)))
  refine List.mem_flatMap.2 ⟨(i, polys[i]), ?_, hm⟩
  exact List.mk_mem_enum_iff_getElem?.2 (List.getElem?_eq_getElem h)

theorem clickRun_spec (ps : List Point) (s : AppState)
    (h : s.isDrawing = true) :
    (run s (ps.map Event.canvasClick)).isDrawing = true
    ∧ (run s (ps.map Event.canvasClick)).loading = s.loading
    ∧ (run s (ps.map Event.canvasClick)).currentPolygon = s.currentPolygon ++ ps
    ∧ (run s (ps.map Event.canvasClick)).showSaveButton =
        (s.showSaveButton
          || decide (ps ≠ [] ∧ 3 ≤ s.currentPolygon.length + ps.length)) := by
  induction ps generalizing s with
  | nil => simp [run, h]
  | cons p ps ih =>
      have hrun : run s ((p :: ps).map Event.canvasClick)
          = run (clickFn s p) (ps.map Event.canvasClick) := rfl
      have hclick : clickFn s p =
          { s with
              showSaveButton :=
                if 1 < s.currentPolygon.length then true else s.showSaveButton
              currentPolygon := s.currentPolygon ++ [p] } := by
        simp [clickFn, h]
      have hd2 : (clickFn s p).isDrawing = true := by rw [hclick]; exact h
      obtain ⟨i1, i2, i3, i4⟩ := ih (clickFn s p) hd2
      rw [hrun]
      refine ⟨i1, ?_, ?_, ?_⟩
      · rw [i2, hclick]
      · rw [i3, hclick]; simp
      · rw [i4, hclick]
        simp only [List.length_append, List.length_cons, List.length_nil]
        rcases Nat.lt_or_ge 1 s.currentPolygon.length with hlt | hge
        · rw [if_pos hlt]
          cases ps <;> simp <;> omega
        · rw [if_neg (by omega)]
          cases ps <;> cases hb : s.showSaveButton <;> simp <;> omega

/-- Claim C2 counterexample: while `loading` is true, `startDrawing` still
flips the drawing flag (a state change), a canvas click still appends a
point, and a confirmed delete still issues the remote call. -/
theorem loading_noop_counterexample :
    busyState.loading = true
    ∧ busyState.isDrawing = false
    ∧ (step busyState Event.startDrawing).1.isDrawing = true
    ∧ (step busyState Event.startDrawing).1 ≠ busyState
    ∧ Request.delete 7 ∈
        (step busyState (Event.deleteClick 7 true (DeleteOutcome.response true)
          (FetchOutcome.response true []))).2
    ∧ (step { busyState with isDrawing := true }
        (Event.canvasClick (1, 2))).1.currentPolygon = [(1, 2)] := by decide

/-- Claim C2 amended: while `loading` is true, confirming the save dialog and
opening it are no-ops (those buttons are disabled), but `startDrawing`,
canvas clicks and delete are not gated by `loading`: starting still enters
drawing mode, clicks while drawing still append, and a confirmed delete
still issues the remote call. -/
theorem loading_gates_save_dialog_only (s : AppState) (h : s.loading = true) :
    (∀ co fo, step s (Event.confirmSave co fo) = (s, []))
    ∧ step s Event.openNameDialog = (s, [])
    ∧ (s.isDrawing = false →
        (step s Event.startDrawing).1.isDrawing = true
        ∧ (step s Event.startDrawing).1.currentPolygon = [])
    ∧ (∀ p, s.isDrawing = true →
        (step s (Event.canvasClick p)).1.currentPolygon
          = s.currentPolygon ++ [p])
    ∧ (∀ id o fo, Request.delete id ∈
        (step s (Event.deleteClick id true o fo)).2) := by
  refine ⟨?_, ?_, ?_, ?_, ?_⟩
  · intro co fo; simp [step, dialogSaveDisabled, h]
  · simp [step, saveAffordanceVisible, saveAffordanceDisabled, h]
  · intro hid; simp [step, hid, startDrawingFn]
  · intro p hid; simp [step, clickFn, hid]
  · intro id o fo
    simp only [step, handleDeletePolygonFn, if_true]
    exact deletePolygonFn_request s id o fo

/-- Claim C2 amended witness: the busy idle state. -/
theorem loading_gates_save_dialog_only_witness :
    step busyState Event.openNameDialog = (busyState, []) :=
  (loading_gates_save_dialog_only busyState rfl).2.1

/-- Claim C5 counterexample: after exactly two accepted clicks the draft has
more than one point, yet the save affordance is not visible. -/
theorem save_affordance_two_point_counterexample :
    1 < twoClickState.currentPolygon.length
    ∧ saveAffordanceVisible twoClickState = false
    ∧ twoClickState.isDrawing = true := by decide

/-- Claim C5 amended: in a session starting from an empty draft with the
affordance hidden, after any sequence of accepted clicks the affordance is
visible exactly when the draft has more than 2 points (the flag is set by a
click whose pre-click count exceeds 1), and it is enabled exactly when the
draft has at least 3 points and loading is false. -/
theorem save_affordance_thresholds (ps : List Point) (s : AppState)
    (hd : s.isDrawing = true) (hb : s.showSaveButton = false)
    (hc : s.currentPolygon = []) :
    (saveAffordanceVisible (run s (ps.map Event.canvasClick)) = true
      ↔ 2 < ps.length)
    ∧ (run s (ps.map Event.canvasClick)).currentPolygon.length = ps.length
    ∧ (saveAffordanceDisabled (run s (ps.map Event.canvasClick)) = false
      ↔ s.loading = false ∧ 3 ≤ ps.length) := by
  obtain ⟨h1, h2, h3, h4⟩ := clickRun_spec ps s hd
  refine ⟨?_, ?_, ?_⟩
  · simp only [saveAffordanceVisible]
    rw [h4, hb, hc]
    cases ps with
    | nil => simp
    | cons q qs => simp; omega
  · rw [h3, hc]; simp
  · simp only [saveAffordanceDisabled]
    rw [h2, h1, h3, hc]
    cases hl : s.loading with
    | false => simp
    | true => simp

/-- Claim C5 amended witness: three clicks from a fresh session. -/
theorem save_affordance_thresholds_witness :
    saveAffordanceVisible
        (run (startDrawingFn initialState)
          ([((0 : Int), (0 : Int)), (1, 0), (0, 1)].map Event.canvasClick)) = true
      ↔ 2 < ([((0 : Int), (0 : Int)), (1, 0), (0, 1)] : List Point).length :=
  (save_affordance_thresholds [((0 : Int), (0 : Int)), (1, 0), (0, 1)]
    (startDrawingFn initialState) rfl rfl rfl).1

/-- Claim C6: the saved polygon at 0-based index `i` is filled with hue
`(i mod N) * 60` degrees at saturation 70, lightness 50, alpha 0.3, and
stroked at the same hue with lightness 40, opaque, width 2; in particular
index 2 gets fill hue 120 regardless of name or point coordinates. -/
theorem saved_polygon_hue (polys : List Polygon) (draft : List Point)
    (i : Nat) (h : i < polys.length) (pts : List Point)
    (hp : polys[i].points = some pts) (h3 : 2 < pts.length) :
    DrawCmd.fill (fillStyleFor i) ∈ drawCanvas polys draft
    ∧ DrawCmd.stroke (strokeStyleFor i) 2 ∈ drawCanvas polys draft
    ∧ fillStyleFor i = ⟨(i % polys.length) * 60, 70, 50, 3 / 10⟩
    ∧ strokeStyleFor i = ⟨(i % polys.length) * 60, 70, 40⟩
    ∧ fillStyleFor 2 = ⟨120, 70, 50, 3 / 10⟩ := by
  have hfill : DrawCmd.fill (fillStyleFor i)
      ∈ renderPolygon i polys[i] := by
    simp [renderPolygon, hp, h3]
  have hstroke : DrawCmd.stroke (strokeStyleFor i) 2
      ∈ renderPolygon i polys[i] := by
    simp [renderPolygon, hp, h3]
  refine ⟨mem_drawCanvas_of_mem_renderPolygon polys draft i h _ hfill,
    mem_drawCanvas_of_mem_renderPolygon polys draft i h _ hstroke, ?_, ?_, rfl⟩
  · rw [Nat.mod_eq_of_lt h]; rfl
  · rw [Nat.mod_eq_of_lt h]; rfl

/-- Claim C6 witness: index 2 of a concrete three-polygon collection. -/
theorem saved_polygon_hue_witness :
    DrawCmd.fill (fillStyleFor 2) ∈ drawCanvas samplePolys []
    ∧ DrawCmd.stroke (strokeStyleFor 2) 2 ∈ drawCanvas samplePolys []
    ∧ fillStyleFor 2 = ⟨(2 % samplePolys.length) * 60, 70, 50, 3 / 10⟩
    ∧ strokeStyleFor 2 = ⟨(2 % samplePolys.length) * 60, 70, 40⟩
    ∧ fillStyleFor 2 = ⟨120, 70, 50, 3 / 10⟩ :=
  saved_polygon_hue samplePolys [] 2 (by decide)
    [(0, 0), (6, 0), (0, 6)] rfl (by decide)

/-- Claim C9: a saved polygon whose points field is missing or has fewer than
3 points contributes no drawing commands at all — no path, fill or label —
while a drawable polygon still gets its fill at its original collection
index, in the full canvas render. -/
theorem renderer_skips_degenerate (polys : List Polygon) (draft : List Point)
    (i : Nat) (h : i < polys.length) :
    (shouldDraw polys[i] = false → renderPolygon i polys[i] = [])
    ∧ (shouldDraw polys[i] = true →
      DrawCmd.fill (fillStyleFor i) ∈ drawCanvas polys draft) := by
  constructor
  · intro hf
    cases hq : polys[i].points with
    | none => simp [renderPolygon, hq]
    | some pts =>
        unfold shouldDraw at hf
        rw [hq] at hf
        simp only [decide_eq_false_iff_not, Nat.not_lt] at hf
        simp only [renderPolygon, hq]
        rw [if_neg (by omega)]
  · intro ht
    cases hq : polys[i].points with
    | none => unfold shouldDraw at ht; rw [hq] at ht; cases ht
    | some pts =>
        unfold shouldDraw at ht
        rw [hq] at ht
        simp only [decide_eq_true_eq] at ht
        refine mem_drawCanvas_of_mem_renderPolygon polys draft i h _ ?_
        simp [renderPolygon, hq, ht]

/-- Claim C9 witness: the middle polygon of `samplePolys` has no points field
and is skipped; the polygon at index 2 is still filled at hue 120. -/
theorem renderer_skips_degenerate_witness :
    (shouldDraw (samplePolys.get ⟨1, by decide⟩) = false →
      renderPolygon 1 (samplePolys.get ⟨1, by decide⟩) = [])
    ∧ (shouldDraw (samplePolys.get ⟨1, by decide⟩) = true →
      DrawCmd.fill (fillStyleFor 1) ∈ drawCanvas samplePolys []) :=
  renderer_skips_degenerate samplePolys [] 1 (by decide)

end PolygonsManager
